/-
  Verification of the money-pooling-app repository:
  a shallow embedding of the Convex schema (src/convex/schema.ts)
  and of the root layout (src/app/layout.tsx), with theorems about
  the claims of the specification.
-/
import Mathlib

set_option maxRecDepth 8192

namespace MoneyPool

/-- A runtime value of the document store: strings, numbers, booleans,
table-tagged document ids, nested objects (a cons spine of named fields)
and arrays (a cons spine of elements). Numbers carry an integer payload;
no claim performs arithmetic on them. -/
inductive CValue : Type where
  | str : String → CValue
  | num : Int → CValue
  | bool : Bool → CValue
  | id : String → String → CValue
  | objNil : CValue
  | objCons : String → CValue → CValue → CValue
  | arrNil : CValue
  | arrCons : CValue → CValue → CValue
deriving DecidableEq

/-- A Convex value validator, as produced by the `v.*` combinators used in
src/convex/schema.ts: `v.string()`, `v.number()`, `v.boolean()`, `v.id(t)`,
`v.literal(s)`, `v.union(...)`, `v.optional(...)`, `v.object({...})`,
`v.array(...)`, `v.any()`. -/
inductive Validator : Type where
  | vString : Validator
  | vNumber : Validator
  | vBoolean : Validator
  | vId : String → Validator
  | vLiteral : String → Validator
  | vUnion : List Validator → Validator
  | vOptional : Validator → Validator
  | vObject : List (String × Validator) → Validator
  | vArray : Validator → Validator
  | vAny : Validator

/-- A document (record) is a finite map from field names to values. -/
abbrev Doc := List (String × CValue)

/-- Look a field up in a document; `none` means the field is absent. -/
def lookupField (d : Doc) (n : String) : Option CValue :=
  match d with
  | [] => none
  | (k, v) :: rest => if k = n then some v else lookupField rest n

/-- Turn a nested-object value into a document; `none` when the value is
not an object. -/
def objFields : CValue → Option Doc
  | .objNil => some []
  | .objCons k v rest => (objFields rest).map (fun fs => (k, v) :: fs)
  | _ => none

/-- The declared field names of a field specification. -/
def fieldNames (fs : List (String × Validator)) : List String :=
  fs.map Prod.fst

/-- Whether a validator is `v.optional(...)`. -/
def Validator.isOpt : Validator → Bool
  | .vOptional _ => true
  | _ => false

mutual
/-- `validates vd val` : the value `val` passes the validator `vd`
(for a present field; absence is handled by `validatesFields`). -/
def validates : Validator → CValue → Bool
  | .vString, .str _ => true
  | .vString, _ => false
  | .vNumber, .num _ => true
  | .vNumber, _ => false
  | .vBoolean, .bool _ => true
  | .vBoolean, _ => false
  | .vId t, .id t' _ => t = t'
  | .vId _, _ => false
  | .vLiteral s, .str s' => s = s'
  | .vLiteral _, _ => false
  | .vUnion vs, val => validatesAny vs val
  | .vOptional vd, val => validates vd val
  | .vObject fs, val =>
      match objFields val with
      | some kvs =>
          validatesFields fs kvs && kvs.all (fun kv => (fieldNames fs).contains kv.1)
      | none => false
  | .vArray vd, .arrCons x rest => validates vd x && validates (.vArray vd) rest
  | .vArray _, .arrNil => true
  | .vArray _, _ => false
  | .vAny, _ => true
termination_by vd val => (sizeOf vd, 0, sizeOf val)

/-- Some validator of the list accepts the value. -/
def validatesAny : List Validator → CValue → Bool
  | [], _ => false
  | vd :: vs, val => validates vd val || validatesAny vs val
termination_by vs val => (sizeOf vs, 0, sizeOf val)

/-- A single field is admitted: an absent field is admitted exactly when
its validator is `v.optional(...)`; a present field must validate. -/
def fieldOk : Validator → Option CValue → Bool
  | vd, none => vd.isOpt
  | vd, some val => validates vd val
termination_by vd res => (sizeOf vd, 1, sizeOf res)

/-- Every declared field of the specification is admitted in the document. -/
def validatesFields : List (String × Validator) → Doc → Bool
  | [], _ => true
  | (n, vd) :: fs, kvs => fieldOk vd (lookupField kvs n) && validatesFields fs kvs
termination_by fs kvs => (sizeOf fs, 2, sizeOf kvs)
end

/-- A document is admitted by a table whose field specification is `fs`
exactly when every required field is present and well-typed, every
optional field is well-typed when present, and no undeclared field
occurs. This is schema validation at a write, as performed by
`defineTable` in src/convex/schema.ts. -/
def tableValidates (fs : List (String × Validator)) (d : Doc) : Bool :=
  validatesFields fs d && d.all (fun kv => (fieldNames fs).contains kv.1)

/-! ## The enumerated literal unions of src/convex/schema.ts -/

/-- Enum for user roles, including specific tenant admin roles. -/
def userRoles : Validator := .vUnion
  [.vLiteral "PlatformAdmin",
   .vLiteral "TenantAdmin_Manager",
   .vLiteral "TenantAdmin_HR",
   .vLiteral "TenantAdmin_Sales",
   .vLiteral "TenantAdmin_Marketing",
   .vLiteral "TenantAdmin_Support",
   .vLiteral "TenantAdmin_Finance",
   .vLiteral "RegularUser"]

/-- Enum for transaction types. -/
def transactionTypes : Validator := .vUnion
  [.vLiteral "Deposit",
   .vLiteral "Withdrawal",
   .vLiteral "GameEntry",
   .vLiteral "GamePayout",
   .vLiteral "CommissionEarned",
   .vLiteral "ReferralBonus"]

/-- Enum for payment request status. -/
def paymentRequestStatus : Validator := .vUnion
  [.vLiteral "Pending", .vLiteral "Verified", .vLiteral "Rejected"]

/-- Enum for game status. -/
def gameStatus : Validator := .vUnion
  [.vLiteral "Pending",
   .vLiteral "Open",
   .vLiteral "Filling",
   .vLiteral "Full",
   .vLiteral "Active",
   .vLiteral "Completed",
   .vLiteral "Cancelled"]

/-- Enum for notification channels. -/
def notificationChannels : Validator := .vUnion
  [.vLiteral "InApp", .vLiteral "Telegram", .vLiteral "Email"]

/-- Enum for referral campaign status. -/
def referralCampaignStatus : Validator := .vUnion
  [.vLiteral "Active", .vLiteral "Paused", .vLiteral "Completed"]

/-! ## The tables of the schema (fields and indexes) -/

/-- Fields of the `users` table. -/
def usersFields : List (String × Validator) :=
  [("clerkId", .vOptional .vString),
   ("telegramId", .vOptional .vString),
   ("telegramUsername", .vOptional .vString),
   ("name", .vString),
   ("email", .vOptional .vString),
   ("passwordHash", .vOptional .vString),
   ("role", userRoles),
   ("tenantId", .vOptional (.vId "tenants")),
   ("profilePictureUrl", .vOptional .vString),
   ("lastLogin", .vNumber),
   ("isActive", .vBoolean),
   ("onboardingCompleted", .vBoolean),
   ("telegramNotificationsEnabled", .vBoolean),
   ("inAppNotificationsEnabled", .vBoolean),
   ("referralCode", .vString),
   ("referredBy", .vOptional .vString)]

/-- Indexes of the `users` table. -/
def usersIndexes : List (String × List String) :=
  [("by_clerkId", ["clerkId"]),
   ("by_telegramId", ["telegramId"]),
   ("by_email", ["email"]),
   ("by_role", ["role"]),
   ("by_tenantId", ["tenantId"])]

/-- Fields of the `tenants` table. -/
def tenantsFields : List (String × Validator) :=
  [("name", .vString),
   ("status", .vUnion [.vLiteral "Active", .vLiteral "Suspended", .vLiteral "Pending"]),
   ("managerEmail", .vString),
   ("settings", .vObject
     [("commissionRate", .vNumber),
      ("paymentProvider", .vOptional .vString),
      ("paymentProviderConfig", .vOptional .vAny)])]

/-- Indexes of the `tenants` table. -/
def tenantsIndexes : List (String × List String) :=
  [("by_name", ["name"]), ("by_status", ["status"])]

/-- Fields of the `employees` table. -/
def employeesFields : List (String × Validator) :=
  [("userId", .vId "users"),
   ("tenantId", .vId "tenants"),
   ("role", userRoles),
   ("isActive", .vBoolean)]

/-- Indexes of the `employees` table. -/
def employeesIndexes : List (String × List String) :=
  [("by_userId", ["userId"]),
   ("by_tenantId", ["tenantId"]),
   ("by_tenantId_userId", ["tenantId", "userId"]),
   ("by_tenantId_role", ["tenantId", "role"])]

/-- Fields of the `games` table. -/
def gamesFields : List (String × Validator) :=
  [("tenantId", .vId "tenants"),
   ("name", .vString),
   ("entryFee", .vNumber),
   ("maxPlayers", .vNumber),
   ("description", .vOptional .vString),
   ("status", gameStatus),
   ("currentPlayers", .vNumber),
   ("participants", .vArray (.vObject
     [("userId", .vId "users"),
      ("selectedNumber", .vNumber),
      ("joinedAt", .vNumber),
      ("isWinner", .vOptional .vBoolean)])),
   ("startTime", .vOptional .vNumber),
   ("endTime", .vOptional .vNumber),
   ("winnerId", .vOptional (.vId "users")),
   ("winningNumber", .vOptional .vNumber),
   ("commissionEarned", .vOptional .vNumber)]

/-- Indexes of the `games` table. -/
def gamesIndexes : List (String × List String) :=
  [("by_tenantId", ["tenantId"]),
   ("by_status", ["status"]),
   ("by_tenantId_status", ["tenantId", "status"])]

/-- Fields of the `gameTemplates` table. -/
def gameTemplatesFields : List (String × Validator) :=
  [("tenantId", .vId "tenants"),
   ("name", .vString),
   ("defaultEntryFee", .vNumber),
   ("defaultMaxPlayers", .vNumber),
   ("description", .vOptional .vString)]

/-- Indexes of the `gameTemplates` table. -/
def gameTemplatesIndexes : List (String × List String) :=
  [("by_tenantId", ["tenantId"])]

/-- Fields of the `wallets` table. -/
def walletsFields : List (String × Validator) :=
  [("ownerId", .vId "users"),
   ("tenantId", .vOptional (.vId "tenants")),
   ("balance", .vNumber),
   ("type", .vUnion [.vLiteral "User", .vLiteral "Tenant", .vLiteral "Platform"])]

/-- Indexes of the `wallets` table. -/
def walletsIndexes : List (String × List String) :=
  [("by_ownerId", ["ownerId"]),
   ("by_tenantId", ["tenantId"]),
   ("by_type", ["type"]),
   ("by_ownerId_type", ["ownerId", "type"])]

/-- Fields of the `transactions` table. -/
def transactionsFields : List (String × Validator) :=
  [("userId", .vOptional (.vId "users")),
   ("tenantId", .vOptional (.vId "tenants")),
   ("type", transactionTypes),
   ("amount", .vNumber),
   ("description", .vString),
   ("status", .vUnion
     [.vLiteral "Pending", .vLiteral "Completed", .vLiteral "Failed", .vLiteral "Reversed"]),
   ("relatedGameId", .vOptional (.vId "games")),
   ("relatedPaymentId", .vOptional (.vId "payments")),
   ("relatedTransactionId", .vOptional (.vId "transactions"))]

/-- Indexes of the `transactions` table. -/
def transactionsIndexes : List (String × List String) :=
  [("by_userId", ["userId"]),
   ("by_tenantId", ["tenantId"]),
   ("by_type", ["type"]),
   ("by_status", ["status"]),
   ("by_userId_type", ["userId", "type"]),
   ("by_tenantId_type", ["tenantId", "type"])]

/-- Fields of the `payments` table. -/
def paymentsFields : List (String × Validator) :=
  [("userId", .vId "users"),
   ("tenantId", .vId "tenants"),
   ("amount", .vNumber),
   ("screenshotId", .vId "_storage"),
   ("status", paymentRequestStatus),
   ("paymentMethod", .vString),
   ("referenceCode", .vString),
   ("verificationNotes", .vOptional .vString),
   ("verifiedBy", .vOptional (.vId "users")),
   ("verifiedAt", .vOptional .vNumber)]

/-- Indexes of the `payments` table. -/
def paymentsIndexes : List (String × List String) :=
  [("by_userId", ["userId"]),
   ("by_tenantId", ["tenantId"]),
   ("by_status", ["status"]),
   ("by_tenantId_status", ["tenantId", "status"])]

/-- Fields of the `notifications` table. -/
def notificationsFields : List (String × Validator) :=
  [("userId", .vId "users"),
   ("tenantId", .vOptional (.vId "tenants")),
   ("type", .vUnion
     [.vLiteral "GameUpdate", .vLiteral "Wallet", .vLiteral "System", .vLiteral "Marketing"]),
   ("title", .vString),
   ("message", .vString),
   ("isRead", .vBoolean),
   ("channel", notificationChannels),
   ("relatedEntityId", .vOptional (.vId "games"))]

/-- Indexes of the `notifications` table. -/
def notificationsIndexes : List (String × List String) :=
  [("by_userId", ["userId"]),
   ("by_tenantId", ["tenantId"]),
   ("by_userId_isRead", ["userId", "isRead"]),
   ("by_tenantId_isRead", ["tenantId", "isRead"])]

/-- Fields of the `auditLogs` table. -/
def auditLogsFields : List (String × Validator) :=
  [("actorId", .vId "users"),
   ("actorRole", userRoles),
   ("tenantId", .vOptional (.vId "tenants")),
   ("actionType", .vString),
   ("resourceType", .vString),
   ("resourceId", .vOptional (.vId "any")),
   ("details", .vAny)]

/-- Indexes of the `auditLogs` table. -/
def auditLogsIndexes : List (String × List String) :=
  [("by_actorId", ["actorId"]),
   ("by_tenantId", ["tenantId"]),
   ("by_actionType", ["actionType"]),
   ("by_resourceId", ["resourceId"]),
   ("by_creationTime", ["_creationTime"])]

/-- Fields of the `platformSettings` table. -/
def platformSettingsFields : List (String × Validator) :=
  [("key", .vString),
   ("value", .vAny),
   ("description", .vOptional .vString)]

/-- Indexes of the `platformSettings` table. -/
def platformSettingsIndexes : List (String × List String) :=
  [("by_key", ["key"])]

/-- Fields of the `commissionOverrides` table. -/
def commissionOverridesFields : List (String × Validator) :=
  [("tenantId", .vId "tenants"),
   ("rate", .vNumber),
   ("startDate", .vNumber),
   ("endDate", .vOptional .vNumber)]

/-- Indexes of the `commissionOverrides` table. -/
def commissionOverridesIndexes : List (String × List String) :=
  [("by_tenantId", ["tenantId"]), ("by_startDate", ["startDate"])]

/-- Fields of the `referralCampaigns` table. -/
def referralCampaignsFields : List (String × Validator) :=
  [("tenantId", .vId "tenants"),
   ("name", .vString),
   ("code", .vString),
   ("status", referralCampaignStatus),
   ("rewardType", .vUnion [.vLiteral "FlatAmount", .vLiteral "Percentage"]),
   ("rewardValue", .vNumber),
   ("minReferredDeposit", .vOptional .vNumber),
   ("startDate", .vNumber),
   ("endDate", .vOptional .vNumber),
   ("description", .vOptional .vString)]

/-- Indexes of the `referralCampaigns` table. -/
def referralCampaignsIndexes : List (String × List String) :=
  [("by_tenantId", ["tenantId"]), ("by_code", ["code"])]

/-- Fields of the `supportTickets` table. -/
def supportTicketsFields : List (String × Validator) :=
  [("userId", .vId "users"),
   ("tenantId", .vOptional (.vId "tenants")),
   ("subject", .vString),
   ("message", .vString),
   ("status", .vUnion [.vLiteral "Open", .vLiteral "Pending", .vLiteral "Closed"]),
   ("priority", .vUnion [.vLiteral "Low", .vLiteral "Medium", .vLiteral "High"]),
   ("assignedTo", .vOptional (.vId "users")),
   ("replies", .vArray (.vObject
     [("userId", .vId "users"),
      ("message", .vString),
      ("timestamp", .vNumber)])),
   ("attachments", .vOptional (.vArray (.vId "_storage")))]

/-- Indexes of the `supportTickets` table. -/
def supportTicketsIndexes : List (String × List String) :=
  [("by_userId", ["userId"]),
   ("by_tenantId", ["tenantId"]),
   ("by_status", ["status"]),
   ("by_assignedTo", ["assignedTo"])]

/-- The whole schema: every table of `defineSchema` in src/convex/schema.ts,
with its field specification. -/
def schemaTables : List (String × List (String × Validator)) :=
  [("users", usersFields),
   ("tenants", tenantsFields),
   ("employees", employeesFields),
   ("games", gamesFields),
   ("gameTemplates", gameTemplatesFields),
   ("wallets", walletsFields),
   ("transactions", transactionsFields),
   ("payments", paymentsFields),
   ("notifications", notificationsFields),
   ("auditLogs", auditLogsFields),
   ("platformSettings", platformSettingsFields),
   ("commissionOverrides", commissionOverridesFields),
   ("referralCampaigns", referralCampaignsFields),
   ("supportTickets", supportTicketsFields)]

/-! ## Index lookup and database primitives -/

/-- A document matches an index key tuple when each named index field
holds exactly the corresponding key component. -/
def matchesIndexKey (fields : List String) (key : List CValue) (d : Doc) : Bool :=
  (List.zip fields key).all (fun fk => lookupField d fk.1 = some fk.2)

/-- Equality lookup on an index: the documents of the table whose index
fields equal the key tuple, in table order. -/
def indexLookup (fields : List String) (key : List CValue) (db : List Doc) : List Doc :=
  db.filter (fun d => matchesIndexKey fields key d)

/-- Resolve an index by name among a table's declared indexes, then run
the equality lookup; an undeclared index resolves nothing. -/
def lookupByIndex (idxs : List (String × List String)) (name : String)
    (key : List CValue) (db : List Doc) : List Doc :=
  match List.lookup name idxs with
  | some fields => indexLookup fields key db
  | none => []

/-- Insert (write) a document into a table: the store keeps it unchanged
at the next free position. -/
def insertDoc (db : List Doc) (d : Doc) : List Doc := db ++ [d]

/-- Read the document at a position back from a table. -/
def getDoc (db : List Doc) (i : Nat) : Option Doc := db[i]?

/-! ## The literal sets of the enumerated unions -/

/-- The 8 user role literals. -/
def roleLiterals : List String :=
  ["PlatformAdmin", "TenantAdmin_Manager", "TenantAdmin_HR", "TenantAdmin_Sales",
   "TenantAdmin_Marketing", "TenantAdmin_Support", "TenantAdmin_Finance", "RegularUser"]

/-- The six tenant-admin role literals. -/
def tenantAdminRoleLiterals : List String :=
  ["TenantAdmin_Manager", "TenantAdmin_HR", "TenantAdmin_Sales",
   "TenantAdmin_Marketing", "TenantAdmin_Support", "TenantAdmin_Finance"]

/-- The 7 game status literals. -/
def gameStatusLiterals : List String :=
  ["Pending", "Open", "Filling", "Full", "Active", "Completed", "Cancelled"]

/-- The 6 transaction type literals. -/
def transactionTypeLiterals : List String :=
  ["Deposit", "Withdrawal", "GameEntry", "GamePayout", "CommissionEarned", "ReferralBonus"]

/-- The 4 transaction status literals. -/
def transactionStatusLiterals : List String :=
  ["Pending", "Completed", "Failed", "Reversed"]

/-- The 3 wallet type literals. -/
def walletTypeLiterals : List String := ["User", "Tenant", "Platform"]

/-- A document omits every optional field of a field specification. -/
def omitsOptionals (fs : List (String × Validator)) (d : Doc) : Bool :=
  fs.all fun nv => ! nv.2.isOpt || (lookupField d nv.1).isNone

/-! ## The root layout (src/app/layout.tsx) -/

/-- A node of the rendered page tree: a plain element (by tag name), the
backend-client provider boundary (ConvexClientProvider), the
toast/notification provider boundary (ToastProvider), or mounted page
content. -/
inductive RNode (α : Type) : Type where
  | elem : String → List (RNode α) → RNode α
  | convexClientProvider : List (RNode α) → RNode α
  | toastProvider : List (RNode α) → RNode α
  | content : α → RNode α

/-- The tree returned by RootLayout in src/app/layout.tsx: an html
element holding a body element holding the ConvexClientProvider, whose
children are a childless ToastProvider followed by the page children. -/
def RootLayout {α : Type} (children : α) : RNode α :=
  .elem "html" [.elem "body" [.convexClientProvider [.toastProvider [], .content children]]]

mutual
/-- All subtrees of a node, the node itself included. -/
def subtrees {α : Type} : RNode α → List (RNode α)
  | .elem t cs => .elem t cs :: subtreesList cs
  | .convexClientProvider cs => .convexClientProvider cs :: subtreesList cs
  | .toastProvider cs => .toastProvider cs :: subtreesList cs
  | .content a => [.content a]
termination_by n => sizeOf n

/-- All subtrees of the nodes of a list. -/
def subtreesList {α : Type} : List (RNode α) → List (RNode α)
  | [] => []
  | n :: ns => subtrees n ++ subtreesList ns
termination_by ns => sizeOf ns
end

/-- Whether a node is the toast provider. -/
def isToastNode {α : Type} : RNode α → Bool
  | .toastProvider _ => true
  | _ => false

/-- Whether a node is the backend-client provider. -/
def isConvexNode {α : Type} : RNode α → Bool
  | .convexClientProvider _ => true
  | _ => false

/-- Whether a node is mounted page content. -/
def isContentNode {α : Type} : RNode α → Bool
  | .content _ => true
  | _ => false

/-- The direct children of a node. -/
def childrenOf {α : Type} : RNode α → List (RNode α)
  | .elem _ cs => cs
  | .convexClientProvider cs => cs
  | .toastProvider cs => cs
  | .content _ => []

/-- Whether some node satisfying `p` wraps mounted content: content
occurs strictly inside such a node's subtree. -/
def wrapsContent {α : Type} (p : RNode α → Bool) (t : RNode α) : Bool :=
  (subtrees t).any fun m => p m && (subtreesList (childrenOf m)).any isContentNode

/-- Whether some node of the tree mounts, among its direct children,
both a toast provider node and (inside a child subtree) the content:
the toast provider as a sibling of the content. -/
def toastBesideContent {α : Type} (t : RNode α) : Bool :=
  (subtrees t).any fun m =>
    (childrenOf m).any isToastNode
    && (childrenOf m).any fun c => (subtrees c).any isContentNode

/-! ## Page metadata (src/app/layout.tsx) -/

/-- Modelled from the spec: the siteConfig constant of src/app/layout.tsx
is imported from a constants module not present in the provided source;
per the spec it carries the configured site name and a description. -/
structure SiteConfig where
  name : String
  description : String

/-- The shape of the exported page metadata: title (default and per-page
template), description and icons. -/
structure TitleMeta where
  default : String
  template : String

/-- The favicon component of the page metadata. -/
structure IconsMeta where
  icon : String

/-- The exported page metadata record. -/
structure PageMetadata where
  title : TitleMeta
  description : String
  icons : IconsMeta

/-- The metadata exported by src/app/layout.tsx, as a function of the
site configuration: default title is the site name, the per-page title
template interpolates the site name after a "%s | " prefix, the
description comes from the site configuration, and the favicon path is
"/favicon.ico". -/
def metadata (cfg : SiteConfig) : PageMetadata :=
  { title := { default := cfg.name, template := "%s | " ++ cfg.name },
    description := cfg.description,
    icons := { icon := "/favicon.ico" } }

/-- Replace the first occurrence of `pat` in `s` by `rep`
(character-list form). -/
def replaceFirstChars (s pat rep : List Char) : List Char :=
  match s with
  | [] => []
  | c :: rest =>
    if pat.isPrefixOf (c :: rest) then rep ++ (c :: rest).drop pat.length
    else c :: replaceFirstChars rest pat rep

/-- Modelled from the spec: applying the per-page title template to a
page title is done by the framework, which is not part of this
repository; it substitutes the page title for the first occurrence of
the "%s" placeholder of the template. -/
def applyTitleTemplate (template page : String) : String :=
  ⟨replaceFirstChars template.data ("%s".data) page.data⟩

/-! ## Concrete documents used as witnesses and counterexamples -/

/-- A game under tenant t1 with status Open and no participants. -/
def openGame : Doc :=
  [("tenantId", .id "tenants" "t1"),
   ("name", .str "Lucky Wheel"),
   ("entryFee", .num 500),
   ("maxPlayers", .num 10),
   ("status", .str "Open"),
   ("currentPlayers", .num 0),
   ("participants", .arrNil)]

/-- A games table holding just `openGame`. -/
def gamesDb : List Doc := [openGame]

/-- A wallet of type User with no optional field. -/
def userWallet : Doc :=
  [("ownerId", .id "users" "u1"), ("balance", .num 1000), ("type", .str "User")]

/-- A wallet of type Tenant with no individual user owner. -/
def tenantPoolWallet : Doc :=
  [("tenantId", .id "tenants" "t1"), ("balance", .num 0), ("type", .str "Tenant")]

/-- A wallet of type Tenant keyed by an individual user owner. -/
def tenantWalletOwned : Doc :=
  [("ownerId", .id "users" "u1"), ("tenantId", .id "tenants" "t1"),
   ("balance", .num 0), ("type", .str "Tenant")]

/-- An employees record whose role is RegularUser, not a tenant-admin
variant. -/
def regularEmployee : Doc :=
  [("userId", .id "users" "u1"), ("tenantId", .id "tenants" "t1"),
   ("role", .str "RegularUser"), ("isActive", .bool true)]

/-- A transaction referencing neither a user nor a tenant. -/
def orphanTransaction : Doc :=
  [("type", .str "Deposit"), ("amount", .num 100),
   ("description", .str "cash deposit"), ("status", .str "Pending")]

/-- A user document with referral code SHARED. -/
def referralUser1 : Doc :=
  [("name", .str "Alice"),
   ("role", .str "RegularUser"),
   ("lastLogin", .num 0),
   ("isActive", .bool true),
   ("onboardingCompleted", .bool false),
   ("telegramNotificationsEnabled", .bool true),
   ("inAppNotificationsEnabled", .bool true),
   ("referralCode", .str "SHARED")]

/-- A distinct user document with the same referral code SHARED. -/
def referralUser2 : Doc :=
  [("name", .str "Bob"),
   ("role", .str "RegularUser"),
   ("lastLogin", .num 1),
   ("isActive", .bool true),
   ("onboardingCompleted", .bool true),
   ("telegramNotificationsEnabled", .bool false),
   ("inAppNotificationsEnabled", .bool true),
   ("referralCode", .str "SHARED")]

/-- A referral campaign with code CAMP. -/
def campaign1 : Doc :=
  [("tenantId", .id "tenants" "t1"),
   ("name", .str "Spring"),
   ("code", .str "CAMP"),
   ("status", .str "Active"),
   ("rewardType", .str "FlatAmount"),
   ("rewardValue", .num 500),
   ("startDate", .num 0)]

/-- A distinct referral campaign with the same code CAMP. -/
def campaign2 : Doc :=
  [("tenantId", .id "tenants" "t1"),
   ("name", .str "Summer"),
   ("code", .str "CAMP"),
   ("status", .str "Paused"),
   ("rewardType", .str "Percentage"),
   ("rewardValue", .num 5),
   ("startDate", .num 10)]

/-- A notification whose related entity is a game. -/
def gameNotification : Doc :=
  [("userId", .id "users" "u1"),
   ("type", .str "GameUpdate"),
   ("title", .str "Game starting"),
   ("message", .str "Your game starts soon"),
   ("isRead", .bool false),
   ("channel", .str "InApp"),
   ("relatedEntityId", .id "games" "g1")]

/-! ## General lemmas about validation -/

theorem validates_vLiteral (s : String) (val : CValue) :
    validates (.vLiteral s) val = true ↔ val = .str s := by
  cases val <;> simp [validates, eq_comm]

theorem validates_vId (t : String) (val : CValue) :
    validates (.vId t) val = true ↔ ∃ s, val = .id t s := by
  cases val <;> simp [validates, eq_comm]

theorem validates_vString (val : CValue) :
    validates .vString val = true ↔ ∃ s, val = .str s := by
  cases val <;> simp [validates]

theorem validates_vNumber (val : CValue) :
    validates .vNumber val = true ↔ ∃ m, val = .num m := by
  cases val <;> simp [validates]

theorem validates_vBoolean (val : CValue) :
    validates .vBoolean val = true ↔ ∃ b, val = .bool b := by
  cases val <;> simp [validates]

/-- A union of string literals accepts exactly the strings of the list. -/
theorem validatesAny_literals (ss : List String) (val : CValue) :
    validatesAny (ss.map .vLiteral) val = true ↔ ∃ s ∈ ss, val = .str s := by
  induction ss with
  | nil => simp [validatesAny]
  | cons s ss ih =>
    rw [List.map_cons, validatesAny, Bool.or_eq_true, ih, validates_vLiteral]
    simp only [List.mem_cons, exists_eq_or_imp]

theorem validates_userRoles (val : CValue) :
    validates userRoles val = true ↔ ∃ s ∈ roleLiterals, val = .str s := by
  have h : userRoles = .vUnion (roleLiterals.map .vLiteral) := rfl
  rw [h, validates]
  exact validatesAny_literals _ _

theorem validates_gameStatus (val : CValue) :
    validates gameStatus val = true ↔ ∃ s ∈ gameStatusLiterals, val = .str s := by
  have h : gameStatus = .vUnion (gameStatusLiterals.map .vLiteral) := rfl
  rw [h, validates]
  exact validatesAny_literals _ _

theorem validates_transactionTypes (val : CValue) :
    validates transactionTypes val = true ↔ ∃ s ∈ transactionTypeLiterals, val = .str s := by
  have h : transactionTypes = .vUnion (transactionTypeLiterals.map .vLiteral) := rfl
  rw [h, validates]
  exact validatesAny_literals _ _

/-- A required field (validator not `v.optional`) admitted by `fieldOk`
is present and validates. -/
theorem fieldOk_required {vd : Validator} {res : Option CValue}
    (hopt : vd.isOpt = false) (h : fieldOk vd res = true) :
    ∃ val, res = some val ∧ validates vd val = true := by
  cases res with
  | none => rw [fieldOk, hopt] at h; exact absurd h (by simp)
  | some val => exact ⟨val, rfl, by rwa [fieldOk] at h⟩

/-- An optional field admitted by `fieldOk` is absent or validates the
inner validator. -/
theorem fieldOk_optional {vd : Validator} {res : Option CValue}
    (h : fieldOk (.vOptional vd) res = true) :
    res = none ∨ ∃ val, res = some val ∧ validates vd val = true := by
  cases res with
  | none => exact Or.inl rfl
  | some val =>
    rw [fieldOk, validates] at h
    exact Or.inr ⟨val, rfl, h⟩

/-- Every declared field of a document admitted by `validatesFields` is
itself admitted. -/
theorem validatesFields_mem {fs : List (String × Validator)} {d : Doc} {n : String} {vd : Validator}
    (hmem : (n, vd) ∈ fs) (h : validatesFields fs d = true) :
    fieldOk vd (lookupField d n) = true := by
  induction fs with
  | nil => simp at hmem
  | cons p fs ih =>
    obtain ⟨m, w⟩ := p
    rw [validatesFields, Bool.and_eq_true] at h
    rcases List.mem_cons.mp hmem with hh | ht
    · simp only [Prod.mk.injEq] at hh
      obtain ⟨rfl, rfl⟩ := hh
      exact h.1
    · exact ih ht h.2

/-- Every declared field of a document admitted at a table write is
itself admitted. -/
theorem tableValidates_field {fs : List (String × Validator)} {d : Doc} {n : String} {vd : Validator}
    (hmem : (n, vd) ∈ fs) (h : tableValidates fs d = true) :
    fieldOk vd (lookupField d n) = true := by
  rw [tableValidates, Bool.and_eq_true] at h
  exact validatesFields_mem hmem h.1

/-! ## General lemmas about index lookup -/

/-- Membership in an equality index lookup is membership in the table
together with the key match. -/
theorem indexLookup_mem {fields : List String} {key : List CValue} {db : List Doc} {d : Doc} :
    d ∈ indexLookup fields key db ↔ d ∈ db ∧ matchesIndexKey fields key d = true :=
  List.mem_filter

/-- Matching a two-field index key is exactly matching both components. -/
theorem matchesIndexKey_pair (f1 f2 : String) (k1 k2 : CValue) (d : Doc) :
    matchesIndexKey [f1, f2] [k1, k2] d = true ↔
      lookupField d f1 = some k1 ∧ lookupField d f2 = some k2 := by
  simp [matchesIndexKey]

/-! ## Field-extraction lemmas for admitted documents -/

/-- A required id field of an admitted document holds an id of the
declared table. -/
theorem tableValidates_reqId {fs : List (String × Validator)} {d : Doc} {n t : String}
    (hmem : (n, Validator.vId t) ∈ fs) (h : tableValidates fs d = true) :
    ∃ s, lookupField d n = some (.id t s) := by
  have hf : fieldOk (Validator.vId t) (lookupField d n) = true := tableValidates_field hmem h
  obtain ⟨val, hlu, hv⟩ := fieldOk_required (by rfl) hf
  obtain ⟨s, rfl⟩ := (validates_vId _ _).mp hv
  exact ⟨s, hlu⟩

/-- An optional id field of an admitted document is absent or holds an
id of the declared table. -/
theorem tableValidates_optId {fs : List (String × Validator)} {d : Doc} {n t : String}
    (hmem : (n, Validator.vOptional (.vId t)) ∈ fs) (h : tableValidates fs d = true) :
    lookupField d n = none ∨ ∃ s, lookupField d n = some (.id t s) := by
  rcases fieldOk_optional (tableValidates_field hmem h) with hn | ⟨val, hlu, hv⟩
  · exact Or.inl hn
  · obtain ⟨s, rfl⟩ := (validates_vId _ _).mp hv
    exact Or.inr ⟨s, hlu⟩

/-- A required number field of an admitted document holds a number. -/
theorem tableValidates_reqNum {fs : List (String × Validator)} {d : Doc} {n : String}
    (hmem : (n, Validator.vNumber) ∈ fs) (h : tableValidates fs d = true) :
    ∃ m, lookupField d n = some (.num m) := by
  have hf : fieldOk Validator.vNumber (lookupField d n) = true := tableValidates_field hmem h
  obtain ⟨val, hlu, hv⟩ := fieldOk_required (by rfl) hf
  obtain ⟨m, rfl⟩ := (validates_vNumber _).mp hv
  exact ⟨m, hlu⟩

/-- An enumerated-literal field of an admitted document holds one of the
enumerated literals. -/
theorem tableValidates_enum {fs : List (String × Validator)} {d : Doc} {n : String}
    {ss : List String}
    (hmem : (n, Validator.vUnion (ss.map .vLiteral)) ∈ fs) (h : tableValidates fs d = true) :
    ∃ s ∈ ss, lookupField d n = some (.str s) := by
  have hf : fieldOk (Validator.vUnion (ss.map .vLiteral)) (lookupField d n) = true :=
    tableValidates_field hmem h
  obtain ⟨val, hlu, hv⟩ := fieldOk_required (by rfl) hf
  rw [validates] at hv
  obtain ⟨s, hs, rfl⟩ := (validatesAny_literals _ _).mp hv
  exact ⟨s, hs, hlu⟩

/-! ## Claims -/

/-- C1: an equality lookup by an index's exact key tuple returns exactly
the records matching every component of the tuple: the wallets
by_ownerId_type lookup with a given owner and type returns only wallets
matching both, and a game under a tenant with status Open is retrievable
via the games by_tenantId_status index for that tenant and status Open,
and is not returned when querying that index with a different status. -/
theorem C1_index_exact_key_lookup :
    (∀ (db : List Doc) (o t : CValue) (w : Doc),
        w ∈ lookupByIndex walletsIndexes "by_ownerId_type" [o, t] db ↔
          w ∈ db ∧ lookupField w "ownerId" = some o ∧ lookupField w "type" = some t)
    ∧ (∀ (db : List Doc) (tid : CValue) (g : Doc),
        tableValidates gamesFields g = true →
        lookupField g "tenantId" = some tid →
        lookupField g "status" = some (.str "Open") →
        g ∈ db →
        g ∈ lookupByIndex gamesIndexes "by_tenantId_status" [tid, .str "Open"] db
        ∧ ∀ s : String, s ≠ "Open" →
            g ∉ lookupByIndex gamesIndexes "by_tenantId_status" [tid, .str s] db) := by
  constructor
  · intro db o t w
    have hres : lookupByIndex walletsIndexes "by_ownerId_type" [o, t] db
        = indexLookup ["ownerId", "type"] [o, t] db := rfl
    rw [hres, indexLookup_mem, matchesIndexKey_pair]
  · intro db tid g _ hten hst hmem
    have hres : ∀ key, lookupByIndex gamesIndexes "by_tenantId_status" key db
        = indexLookup ["tenantId", "status"] key db := fun _ => rfl
    constructor
    · rw [hres, indexLookup_mem, matchesIndexKey_pair]
      exact ⟨hmem, hten, hst⟩
    · intro s hs hin
      rw [hres, indexLookup_mem, matchesIndexKey_pair] at hin
      have h2 := hin.2.2
      rw [hst] at h2
      exact hs (CValue.str.inj (Option.some.inj h2)).symm

/-- C1 witness: the concrete open game is returned by the
by_tenantId_status lookup for its tenant and status Open, and is not
returned for status Completed. -/
theorem C1_witness :
    openGame ∈ lookupByIndex gamesIndexes "by_tenantId_status"
        [.id "tenants" "t1", .str "Open"] gamesDb
    ∧ openGame ∉ lookupByIndex gamesIndexes "by_tenantId_status"
        [.id "tenants" "t1", .str "Completed"] gamesDb := by
  have h := C1_index_exact_key_lookup.2 gamesDb (.id "tenants" "t1") openGame
    (by simp [tableValidates, validatesFields, fieldOk, validates, validatesAny,
              Validator.isOpt, lookupField, fieldNames, gamesFields, gameStatus, openGame])
    (by simp [lookupField, openGame])
    (by simp [lookupField, openGame])
    (by simp [gamesDb])
  exact ⟨h.1, h.2 "Completed" (by decide)⟩

/-- C2: users.role is validated against exactly the 8 enumerated role
literals and games.status against exactly the 7 enumerated status
literals: a value inside the set passes the field's validation, a write
whose role or status lies outside the set fails schema validation, and
every admitted users (resp. games) document carries a role (resp.
status) from the set. -/
theorem C2_role_and_status_enums :
    roleLiterals.length = 8
    ∧ gameStatusLiterals.length = 7
    ∧ (∀ val : CValue, validates userRoles val = true ↔ ∃ s ∈ roleLiterals, val = .str s)
    ∧ (∀ val : CValue, validates gameStatus val = true ↔ ∃ s ∈ gameStatusLiterals, val = .str s)
    ∧ (∀ d : Doc, tableValidates usersFields d = true →
        ∃ s ∈ roleLiterals, lookupField d "role" = some (.str s))
    ∧ (∀ d : Doc, tableValidates gamesFields d = true →
        ∃ s ∈ gameStatusLiterals, lookupField d "status" = some (.str s)) := by
  refine ⟨rfl, rfl, validates_userRoles, validates_gameStatus, ?_, ?_⟩
  · intro d h
    have hmem : ("role", Validator.vUnion (roleLiterals.map .vLiteral)) ∈ usersFields := by
      have e : Validator.vUnion (roleLiterals.map .vLiteral) = userRoles := rfl
      rw [e]; simp [usersFields]
    exact tableValidates_enum hmem h
  · intro d h
    have hmem : ("status", Validator.vUnion (gameStatusLiterals.map .vLiteral)) ∈ gamesFields := by
      have e : Validator.vUnion (gameStatusLiterals.map .vLiteral) = gameStatus := rfl
      rw [e]; simp [gamesFields]
    exact tableValidates_enum hmem h

/-- C2 witness: the concrete admitted user carries a role from the
enumerated set. -/
theorem C2_witness :
    ∃ s ∈ roleLiterals, lookupField referralUser1 "role" = some (.str s) :=
  C2_role_and_status_enums.2.2.2.2.1 referralUser1 (by
    simp [tableValidates, validatesFields, fieldOk, validates, validatesAny,
          Validator.isOpt, lookupField, fieldNames, usersFields, userRoles, referralUser1])

/-- C3: for every table of the schema, writing a record admitted with
all optional fields omitted and reading it back preserves every required
field unchanged and reports every omitted optional field as absent. -/
theorem C3_roundtrip_omitted_optionals :
    ∀ (tname : String) (fs : List (String × Validator)), (tname, fs) ∈ schemaTables →
    ∀ (d : Doc) (db : List Doc),
      tableValidates fs d = true →
      omitsOptionals fs d = true →
      ∃ d', getDoc (insertDoc db d) db.length = some d'
        ∧ (∀ n vd, (n, vd) ∈ fs → vd.isOpt = false →
            lookupField d' n = lookupField d n ∧ (lookupField d' n).isSome = true)
        ∧ (∀ n vd, (n, vd) ∈ fs → vd.isOpt = true → lookupField d' n = none) := by
  intro tname fs _ d db hval homit
  refine ⟨d, ?_, ?_, ?_⟩
  · simp [getDoc, insertDoc]
  · intro n vd hf hreq
    refine ⟨rfl, ?_⟩
    have hfo := tableValidates_field hf hval
    obtain ⟨val, hlu, -⟩ := fieldOk_required hreq hfo
    simp [hlu]
  · intro n vd hf hopt
    have hall := (List.all_eq_true.mp homit) (n, vd) hf
    simp only [hopt, Bool.not_true, Bool.false_or] at hall
    exact Option.isNone_iff_eq_none.mp hall

/-- C3 witness: a wallet written with its optional tenantId omitted
reads back unchanged and reports tenantId as absent. -/
theorem C3_witness :
    getDoc (insertDoc [] userWallet) 0 = some userWallet
    ∧ lookupField userWallet "tenantId" = none := by
  obtain ⟨d', hget, hreq, hopt⟩ :=
    C3_roundtrip_omitted_optionals "wallets" walletsFields (by simp [schemaTables])
      userWallet []
      (by simp [tableValidates, validatesFields, fieldOk, validates, validatesAny,
                Validator.isOpt, lookupField, fieldNames, walletsFields, userWallet])
      (by simp [omitsOptionals, walletsFields, Validator.isOpt, lookupField, userWallet])
  simp only [getDoc, insertDoc, List.length_nil, List.nil_append] at hget
  have hd : d' = userWallet := by
    have h0 : ([userWallet] : List Doc)[0]? = some userWallet := rfl
    rw [h0] at hget
    exact (Option.some.inj hget).symm
  subst hd
  exact ⟨by simp [getDoc, insertDoc], hopt "tenantId" (.vOptional (.vId "tenants"))
    (by simp [walletsFields]) rfl⟩

/-- C4 counterexample: the schema keys every wallet, of any type, by an
individual user owner: a wallet of type Tenant without ownerId is
rejected, while the same pool wallet with a user ownerId is admitted —
contradicting that Tenant/Platform wallets are not keyed by an
individual user owner. -/
theorem C4_counterexample :
    tableValidates walletsFields tenantPoolWallet = false
    ∧ tableValidates walletsFields tenantWalletOwned = true
    ∧ lookupField tenantWalletOwned "type" = some (.str "Tenant")
    ∧ lookupField tenantWalletOwned "ownerId" = some (.id "users" "u1") := by
  refine ⟨?_, ?_, rfl, rfl⟩
  · simp [tableValidates, validatesFields, fieldOk, validates, validatesAny,
          Validator.isOpt, lookupField, fieldNames, walletsFields, tenantPoolWallet]
  · simp [tableValidates, validatesFields, fieldOk, validates, validatesAny,
          Validator.isOpt, lookupField, fieldNames, walletsFields, tenantWalletOwned]

/-- C4 (amended): every admitted wallet, regardless of its type, has a
required ownerId referencing a users document, a type among User, Tenant
and Platform, and an optional tenantId that, when present, references a
tenants document; the required ownership key does not depend on the
type. -/
theorem C4_wallet_ownership :
    ∀ d : Doc, tableValidates walletsFields d = true →
      (∃ s, lookupField d "ownerId" = some (.id "users" s))
      ∧ (∃ t ∈ walletTypeLiterals, lookupField d "type" = some (.str t))
      ∧ (lookupField d "tenantId" = none
          ∨ ∃ s, lookupField d "tenantId" = some (.id "tenants" s)) := by
  intro d h
  refine ⟨?_, ?_, ?_⟩
  · exact tableValidates_reqId (by simp [walletsFields]) h
  · have hmem : ("type", Validator.vUnion (walletTypeLiterals.map .vLiteral)) ∈ walletsFields := by
      simp [walletsFields, walletTypeLiterals]
    exact tableValidates_enum hmem h
  · exact tableValidates_optId (by simp [walletsFields]) h

/-- C4 witness: the admitted Tenant-type wallet has a user owner key. -/
theorem C4_witness :
    ∃ s, lookupField tenantWalletOwned "ownerId" = some (.id "users" s) :=
  (C4_wallet_ownership tenantWalletOwned (by
    simp [tableValidates, validatesFields, fieldOk, validates, validatesAny,
          Validator.isOpt, lookupField, fieldNames, walletsFields, tenantWalletOwned])).1

/-- C5 counterexample: an employees record whose role is RegularUser —
not a tenant-admin variant — is admitted by the schema. -/
theorem C5_counterexample :
    tableValidates employeesFields regularEmployee = true
    ∧ lookupField regularEmployee "role" = some (.str "RegularUser")
    ∧ "RegularUser" ∉ tenantAdminRoleLiterals := by
  refine ⟨?_, rfl, by decide⟩
  simp [tableValidates, validatesFields, fieldOk, validates, validatesAny,
        Validator.isOpt, lookupField, fieldNames, employeesFields, userRoles, regularEmployee]

/-- C5 (amended): employees.role is validated only against the full
8-literal user role union: every admitted employees record has a role
among the 8 literals, and every one of the 8 literals — tenant-admin or
not — is admitted in an employees record. -/
theorem C5_employee_role_validation :
    (∀ d : Doc, tableValidates employeesFields d = true →
      ∃ s ∈ roleLiterals, lookupField d "role" = some (.str s))
    ∧ (∀ s ∈ roleLiterals, ∃ d : Doc,
        tableValidates employeesFields d = true
        ∧ lookupField d "role" = some (.str s)) := by
  constructor
  · intro d h
    have hmem : ("role", Validator.vUnion (roleLiterals.map .vLiteral)) ∈ employeesFields := by
      have e : Validator.vUnion (roleLiterals.map .vLiteral) = userRoles := rfl
      rw [e]; simp [employeesFields]
    exact tableValidates_enum hmem h
  · intro s hs
    refine ⟨[("userId", .id "users" "u1"), ("tenantId", .id "tenants" "t1"),
             ("role", .str s), ("isActive", .bool true)], ?_, by simp [lookupField]⟩
    have hrole : validates userRoles (.str s) = true :=
      (validates_userRoles _).mpr ⟨s, hs, rfl⟩
    simp [tableValidates, validatesFields, fieldOk, validates,
          Validator.isOpt, lookupField, fieldNames, employeesFields, hrole]

/-- C5 witness: the admitted RegularUser employee record carries a role
from the 8-literal set. -/
theorem C5_witness :
    ∃ s ∈ roleLiterals, lookupField regularEmployee "role" = some (.str s) :=
  C5_employee_role_validation.1 regularEmployee (by
    simp [tableValidates, validatesFields, fieldOk, validates, validatesAny,
          Validator.isOpt, lookupField, fieldNames, employeesFields, userRoles, regularEmployee])

/-- C6 counterexample: a transaction referencing neither a user nor a
tenant is admitted by the schema — contradicting that every transaction
references a User and a Tenant. -/
theorem C6_counterexample :
    tableValidates transactionsFields orphanTransaction = true
    ∧ lookupField orphanTransaction "userId" = none
    ∧ lookupField orphanTransaction "tenantId" = none := by
  refine ⟨?_, rfl, rfl⟩
  simp [tableValidates, validatesFields, fieldOk, validates, validatesAny,
        Validator.isOpt, lookupField, fieldNames, transactionsFields, transactionTypes,
        orphanTransaction]

/-- C6 (amended): every admitted transaction has a type drawn from the 6
enumerated variants, a signed numeric amount, a status drawn from the
4-state set, and only optional links — to a User, a Tenant, a Game, a
Payment, or another Transaction; the user and tenant references are
optional, not required. -/
theorem C6_transaction_shape :
    transactionTypeLiterals.length = 6
    ∧ transactionStatusLiterals.length = 4
    ∧ ∀ d : Doc, tableValidates transactionsFields d = true →
        (∃ s ∈ transactionTypeLiterals, lookupField d "type" = some (.str s))
        ∧ (∃ m : Int, lookupField d "amount" = some (.num m))
        ∧ (∃ s ∈ transactionStatusLiterals, lookupField d "status" = some (.str s))
        ∧ (lookupField d "userId" = none
            ∨ ∃ s, lookupField d "userId" = some (.id "users" s))
        ∧ (lookupField d "tenantId" = none
            ∨ ∃ s, lookupField d "tenantId" = some (.id "tenants" s))
        ∧ (lookupField d "relatedGameId" = none
            ∨ ∃ s, lookupField d "relatedGameId" = some (.id "games" s))
        ∧ (lookupField d "relatedPaymentId" = none
            ∨ ∃ s, lookupField d "relatedPaymentId" = some (.id "payments" s))
        ∧ (lookupField d "relatedTransactionId" = none
            ∨ ∃ s, lookupField d "relatedTransactionId" = some (.id "transactions" s)) := by
  refine ⟨rfl, rfl, ?_⟩
  intro d h
  refine ⟨?_, ?_, ?_, ?_, ?_, ?_, ?_, ?_⟩
  · have hmem : ("type", Validator.vUnion (transactionTypeLiterals.map .vLiteral))
        ∈ transactionsFields := by
      have e : Validator.vUnion (transactionTypeLiterals.map .vLiteral) = transactionTypes := rfl
      rw [e]; simp [transactionsFields]
    exact tableValidates_enum hmem h
  · exact tableValidates_reqNum (by simp [transactionsFields]) h
  · have hmem : ("status", Validator.vUnion (transactionStatusLiterals.map .vLiteral))
        ∈ transactionsFields := by
      simp [transactionsFields, transactionStatusLiterals]
    exact tableValidates_enum hmem h
  · exact tableValidates_optId (by simp [transactionsFields]) h
  · exact tableValidates_optId (by simp [transactionsFields]) h
  · exact tableValidates_optId (by simp [transactionsFields]) h
  · exact tableValidates_optId (by simp [transactionsFields]) h
  · exact tableValidates_optId (by simp [transactionsFields]) h

/-- C6 witness: the admitted orphan transaction carries a type from the
6 enumerated variants. -/
theorem C6_witness :
    ∃ s ∈ transactionTypeLiterals, lookupField orphanTransaction "type" = some (.str s) :=
  (C6_transaction_shape.2.2 orphanTransaction (by
    simp [tableValidates, validatesFields, fieldOk, validates, validatesAny,
          Validator.isOpt, lookupField, fieldNames, transactionsFields, transactionTypes,
          orphanTransaction])).1

/-- C7 counterexample: in the rendered root layout tree the
backend-client provider wraps the page content, but the toast provider —
mounted childless — does not wrap it, contradicting that both provider
scopes each wrap the nested page content. -/
theorem C7_counterexample :
    wrapsContent isConvexNode (RootLayout (0 : Nat)) = true
    ∧ wrapsContent isToastNode (RootLayout (0 : Nat)) = false := by
  constructor <;>
    simp [RootLayout, wrapsContent, subtrees, subtreesList, childrenOf,
          isToastNode, isConvexNode, isContentNode]

/-- C7 (amended): for every child content, the root layout mounts the
children inside the backend-client provider scope, and mounts the toast
provider inside that same scope as a sibling of the children, not as a
wrapper around them. -/
theorem C7_layout_providers :
    ∀ (α : Type) (c : α),
      wrapsContent isConvexNode (RootLayout c) = true
      ∧ wrapsContent isToastNode (RootLayout c) = false
      ∧ toastBesideContent (RootLayout c) = true := by
  intro α c
  refine ⟨?_, ?_, ?_⟩ <;>
    simp [RootLayout, wrapsContent, toastBesideContent, subtrees, subtreesList,
          childrenOf, isToastNode, isConvexNode, isContentNode]

/-- C8: schema validation checks nothing beyond field shape and
enumerated-literal membership: two distinct users with the same
referralCode are both admitted, two distinct referral campaigns with the
same code are both admitted, and both members of a pair can be stored
together — no uniqueness or referential-integrity constraint rejects
them. -/
theorem C8_no_uniqueness_enforcement :
    tableValidates usersFields referralUser1 = true
    ∧ tableValidates usersFields referralUser2 = true
    ∧ referralUser1 ≠ referralUser2
    ∧ lookupField referralUser1 "referralCode" = some (.str "SHARED")
    ∧ lookupField referralUser2 "referralCode" = some (.str "SHARED")
    ∧ tableValidates referralCampaignsFields campaign1 = true
    ∧ tableValidates referralCampaignsFields campaign2 = true
    ∧ campaign1 ≠ campaign2
    ∧ lookupField campaign1 "code" = some (.str "CAMP")
    ∧ lookupField campaign2 "code" = some (.str "CAMP")
    ∧ referralUser1 ∈ insertDoc (insertDoc [] referralUser1) referralUser2
    ∧ referralUser2 ∈ insertDoc (insertDoc [] referralUser1) referralUser2 := by
  refine ⟨?_, ?_, by decide, rfl, rfl, ?_, ?_, by decide, rfl, rfl,
          by simp [insertDoc], by simp [insertDoc]⟩
  · simp [tableValidates, validatesFields, fieldOk, validates, validatesAny,
          Validator.isOpt, lookupField, fieldNames, usersFields, userRoles, referralUser1]
  · simp [tableValidates, validatesFields, fieldOk, validates, validatesAny,
          Validator.isOpt, lookupField, fieldNames, usersFields, userRoles, referralUser2]
  · simp [tableValidates, validatesFields, fieldOk, validates, validatesAny,
          Validator.isOpt, lookupField, fieldNames, referralCampaignsFields,
          referralCampaignStatus, campaign1]
  · simp [tableValidates, validatesFields, fieldOk, validates, validatesAny,
          Validator.isOpt, lookupField, fieldNames, referralCampaignsFields,
          referralCampaignStatus, campaign2]

/-- C9: the root layout exports page metadata whose default title is the
configured site name, whose per-page title template renders a page title
followed by a vertical-bar separator and the site name, which carries
the configured description, and whose favicon path is /favicon.ico. -/
theorem C9_metadata_shape :
    ∀ (cfg : SiteConfig) (page : String),
      (metadata cfg).title.default = cfg.name
      ∧ (metadata cfg).title.template = "%s | " ++ cfg.name
      ∧ applyTitleTemplate (metadata cfg).title.template page = page ++ " | " ++ cfg.name
      ∧ (metadata cfg).description = cfg.description
      ∧ (metadata cfg).icons.icon = "/favicon.ico" := by
  intro cfg page
  refine ⟨rfl, rfl, ?_, rfl, rfl⟩
  apply String.ext
  show replaceFirstChars ("%s | " ++ cfg.name).data ("%s".data) page.data
      = (page ++ " | " ++ cfg.name).data
  simp only [String.data_append]
  simp [replaceFirstChars, List.isPrefixOf]

/-- C10: the optional relatedEntityId of a notification, when present,
is an identifier into the games table only: every admitted notification
has it absent or holding a games id, and a notification whose
related-entity link is an id of any other table (for instance
transactions) is rejected by schema validation. -/
theorem C10_notification_related_entity :
    (∀ d : Doc, tableValidates notificationsFields d = true →
      lookupField d "relatedEntityId" = none
      ∨ ∃ s, lookupField d "relatedEntityId" = some (.id "games" s))
    ∧ (∀ (d : Doc) (t s : String), t ≠ "games" →
        lookupField d "relatedEntityId" = some (.id t s) →
        tableValidates notificationsFields d = false) := by
  constructor
  · intro d h
    exact tableValidates_optId (by simp [notificationsFields]) h
  · intro d t s ht hlu
    rcases Bool.eq_false_or_eq_true (tableValidates notificationsFields d) with h1 | h0
    swap
    · exact h0
    · have hmem : ("relatedEntityId", Validator.vOptional (.vId "games"))
          ∈ notificationsFields := by simp [notificationsFields]
      rcases tableValidates_optId hmem h1 with hn | ⟨s', hs'⟩
      · rw [hlu] at hn
        exact absurd hn (by simp)
      · rw [hlu] at hs'
        exact absurd (CValue.id.inj (Option.some.inj hs')).1 ht

/-- C10 witness: the admitted game notification has its related entity
absent or a games id. -/
theorem C10_witness :
    lookupField gameNotification "relatedEntityId" = none
    ∨ ∃ s, lookupField gameNotification "relatedEntityId" = some (.id "games" s) :=
  C10_notification_related_entity.1 gameNotification (by
    simp [tableValidates, validatesFields, fieldOk, validates, validatesAny,
          Validator.isOpt, lookupField, fieldNames, notificationsFields,
          notificationChannels, gameNotification])

end MoneyPool
